import Mathlib

/-!
Shallow embedding of the FastAPI auth backend (src/backends/fastapi):
`auth_utils.py`, `main.py`, `models.py`, with the provider-exchange result of
`oauth2_utils.py` treated as an input at the boundary.  Stores are modelled as
lists of records in insertion order (SQLAlchemy `query(...).first()` is the
first matching row, `db.add` appends, `db.delete` removes the matched row).
Time is a `Nat` of seconds passed explicitly (`datetime.utcnow()`).
-/

/-- Python exceptions that the embedded code can raise.  A `Except PyExc`
result models a Python call that may terminate with an uncaught exception. -/
inductive PyExc where
  | attributeError
  | typeError
  | valueError
deriving DecidableEq

/-- Python truthiness of an `Optional[str]` value: `None` and `""` are falsy. -/
def pyTruthyOptStr : Option String → Bool
  | none => false
  | some s => !(s == "")

/-- Whitespace class used by Python `str.split()` (ASCII range; Python also
splits on some rarer Unicode separators, irrelevant to HTTP header values). -/
def pyIsSpace (c : Char) : Bool :=
  c == ' ' || c == '\t' || c == '\n' || c == '\r' || c == '\x0b' || c == '\x0c'

/-- Worker for `pySplit`: accumulates the current word (reversed) and splits
at whitespace runs, discarding empty words, as Python `str.split()` does. -/
def wordsAux : List Char → List Char → List (List Char)
  | [], acc => if acc.isEmpty then [] else [acc.reverse]
  | c :: cs, acc =>
    if pyIsSpace c then
      if acc.isEmpty then wordsAux cs [] else acc.reverse :: wordsAux cs []
    else wordsAux cs (c :: acc)

/-- Python `str.split()` with no argument: split on runs of whitespace,
leading/trailing whitespace ignored, no empty parts. -/
def pySplit (s : String) : List String :=
  (wordsAux s.data []).map String.mk

/-- Python `str.lower()` (ASCII case folding, which is all the scheme
comparison in `get_current_user` needs). -/
def pyLower (s : String) : String :=
  String.mk (s.data.map Char.toLower)

/-! ## Credential hasher (`auth_utils.py` lines 18-38)

`pwd_context = CryptContext(schemes=["bcrypt"])`.  The bcrypt algorithm
derives its digest from the cost factor, the random salt, and the FIRST 72
BYTES of the UTF-8 encoded key; longer keys are silently truncated by
passlib's bcrypt handler.  The digest is modelled as the triple
(cost, salt, first-72-bytes-of-key) of an ideal collision-free function. -/

/-- UTF-8 encoding of one character as a list of byte values. -/
def utf8Bytes (c : Char) : List Nat :=
  let n := c.toNat
  if n < 0x80 then [n]
  else if n < 0x800 then
    [0xC0 + n / 0x40, 0x80 + n % 0x40]
  else if n < 0x10000 then
    [0xE0 + n / 0x1000, 0x80 + n / 0x40 % 0x40, 0x80 + n % 0x40]
  else
    [0xF0 + n / 0x40000, 0x80 + n / 0x1000 % 0x40, 0x80 + n / 0x40 % 0x40,
      0x80 + n % 0x40]

/-- UTF-8 encoding of a string as a list of byte values. -/
def strBytes (s : String) : List Nat :=
  s.data.flatMap utf8Bytes

/-- The part of a password bcrypt actually uses: the first 72 bytes of its
UTF-8 encoding. -/
def trunc72 (p : String) : List Nat :=
  (strBytes p).take 72

/-- A parsed bcrypt hash: cost factor, salt, and digest.  The digest of the
real algorithm is a one-way function of (cost, salt, first 72 key bytes);
the model records those inputs themselves (ideal collision-free digest). -/
structure BcryptDigest where
  cost : Nat
  salt : Nat
  key72 : List Nat
deriving DecidableEq

/-- bcrypt digest computation (see `BcryptDigest`). -/
def bcrypt_hash (cost salt : Nat) (p : String) : BcryptDigest :=
  ⟨cost, salt, trunc72 p⟩

/-- bcrypt verification: recompute the digest with the cost and salt embedded
in the stored hash and compare with the stored digest (the cost and salt
trivially match, so the comparison is between the truncated keys). -/
def bcrypt_verify (p : String) (h : BcryptDigest) : Bool :=
  trunc72 p == h.key72

/-- The space of strings sitting in a hashed-password position, partitioned
by whether passlib can identify them as a bcrypt hash. -/
inductive HashStr where
  | bcrypt (h : BcryptDigest)
  | malformed (s : String)
deriving DecidableEq

/-- `hash_password` (auth_utils.py lines 22-24): `pwd_context.hash(password)`
with passlib's default cost 12 and a fresh random salt, both passed
explicitly here. -/
def hash_password (cost salt : Nat) (password : String) : HashStr :=
  .bcrypt (bcrypt_hash cost salt password)

/-- `verify_password` (auth_utils.py lines 27-29):
`pwd_context.verify(plain_password, hashed_password)`.  passlib raises an
`UnknownHashError` (a `ValueError`) when the hash string cannot be
identified as any configured scheme; it does not return `False` there. -/
def verify_password (plain_password : String) (hashed_password : HashStr) :
    Except PyExc Bool :=
  match hashed_password with
  | .bcrypt h => .ok (bcrypt_verify plain_password h)
  | .malformed _ => .error .valueError

/-! ## Settings (`config.py`) -/

/-- `config.py` line 15: `algorithm: str = "HS256"`. -/
def settings.algorithm : String := "HS256"

/-- `config.py` line 16: `access_token_expire_minutes: int = 60`. -/
def settings.accessTokenExpireMinutes : Nat := 60

/-- `config.py` line 17: `refresh_token_expire_days: int = 7`. -/
def settings.refreshTokenExpireDays : Nat := 7

/-! ## JWT access tokens (`auth_utils.py` lines 41-87) -/

/-- The claim set of a JWT: `sub`, `exp`, `type`; each may be absent in an
arbitrary (attacker-supplied) token. -/
structure JwtPayload where
  sub : Option String
  exp : Option Nat
  type : Option String
deriving DecidableEq

/-- A string in JWT position: either not a well-formed JWT at all, or a
payload signed under some key with some algorithm. -/
inductive Jwt where
  | malformed (raw : String)
  | signed (payload : JwtPayload) (key : String) (alg : String)
deriving DecidableEq

/-- The `jose.JWTError` family raised by `jwt.decode`. -/
inductive JwtError where
  | malformedJwt
  | badSignature
  | expiredSignature
deriving DecidableEq

/-- `jose.jwt.decode(token, key, algorithms=[alg])`: parse (error if
malformed), check the algorithm is in the allowed list and the signature
verifies under `key`, then validate the `exp` claim against the current
time when present (`ExpiredSignatureError` if `exp` is strictly in the
past).  All failures are `JWTError` subclasses. -/
def jwt_decode (key : String) (now : Nat) : Jwt → Except JwtError JwtPayload
  | .malformed _ => .error .malformedJwt
  | .signed p k a =>
    if k = key ∧ a = settings.algorithm then
      match p.exp with
      | some e => if e < now then .error .expiredSignature else .ok p
      | none => .ok p
    else .error .badSignature

/-- `create_access_token` (auth_utils.py lines 41-54), default expiry path:
payload `sub = user_id`, `exp = now + 60 minutes`, `type = "access"`,
signed with the server key and `settings.algorithm`. -/
def create_access_token (key : String) (now : Nat) (user_id : String) : Jwt :=
  .signed ⟨some user_id, some (now + settings.accessTokenExpireMinutes * 60),
    some "access"⟩ key settings.algorithm

/-- `verify_access_token` (auth_utils.py lines 75-87): decode; on `JWTError`
return `None`; reject when `sub` is absent or `type` is not `"access"`;
otherwise return the user id.  Totality of this definition is the
"never raises" part: every outcome is `some`/`none`. -/
def verify_access_token (key : String) (now : Nat) (token : Jwt) :
    Option String :=
  match jwt_decode key now token with
  | .error _ => none
  | .ok payload =>
    match payload.sub, payload.type with
    | some user_id, some ty => if ty = "access" then some user_id else none
    | _, _ => none

/-! ## Data model (`models.py` lines 27-45)

`models.py` declares the `users` table with columns `id`, `email`, `name`,
`hashed_password`, `created_at`, `updated_at` ONLY — it declares no
`oauth_provider` and no `oauth_provider_user_id` column, although
`auth_utils.py`, `main.py` and `test_main.py` all use those attributes.
Timestamp columns are never read by any embedded code path and are omitted.
-/

/-- `models.py` `User` (lines 27-35).  `hashed_password` holds the string
stored in the NOT NULL column, partitioned by bcrypt-parseability. -/
structure User where
  id : String
  email : String
  name : Option String
  hashed_password : HashStr
deriving DecidableEq

/-- The Python attribute read `user.oauth_provider` on a `User` loaded from
the store.  `models.py` declares no `oauth_provider` column and nothing sets
that attribute on a freshly queried instance, so the read raises
`AttributeError`. -/
def User.oauthProviderAttr (_ : User) : Except PyExc (Option String) :=
  .error .attributeError

/-- `models.py` `RefreshToken` (lines 38-45).  The `id` primary key and
`created_at` are never read by the embedded logic and are omitted;
`db.delete(row)` is modelled as erasing the matched row itself.
`expires_at` is a timestamp in seconds. -/
structure RefreshToken where
  user_id : String
  token : String
  expires_at : Nat
deriving DecidableEq

/-- The `unique=True` constraint on `refresh_tokens.token` (models.py line
43), as a boolean predicate on the modelled store: pairwise distinct token
strings. -/
def tokensUniqueB : List RefreshToken → Bool
  | [] => true
  | r :: rs => rs.all (fun x => !(x.token == r.token)) && tokensUniqueB rs

/-! ## Refresh-token store operations (`auth_utils.py`) -/

/-- `create_refresh_token` (auth_utils.py lines 57-72): generate a fresh
opaque token string (`ref_<uuid4 hex>`, passed in as `freshTok`), compute
the expiry `now + refresh_token_expire_days` and insert the record.
Returns the token string, the record, and the updated store. -/
def create_refresh_token (db : List RefreshToken) (user_id : String)
    (freshTok : String) (now : Nat) :
    String × RefreshToken × List RefreshToken :=
  let rt : RefreshToken :=
    ⟨user_id, freshTok, now + settings.refreshTokenExpireDays * 86400⟩
  (freshTok, rt, db ++ [rt])

/-- `verify_refresh_token` (auth_utils.py lines 90-104): look up the first
row whose token equals the presented string; absent means invalid (store
untouched); present but `expires_at < now` means delete that row and
invalid; otherwise return the record.  Returns (outcome, updated store). -/
def verify_refresh_token (now : Nat) (db : List RefreshToken)
    (token : String) : Option RefreshToken × List RefreshToken :=
  match db.find? (fun r => r.token == token) with
  | none => (none, db)
  | some r =>
    if r.expires_at < now then
      (none, db.eraseP (fun r => r.token == token))
    else (some r, db)

/-- `revoke_refresh_token` (auth_utils.py lines 198-207): delete the row
with the given token if present; return whether anything was deleted,
paired with the updated store. -/
def revoke_refresh_token (db : List RefreshToken) (token : String) :
    Bool × List RefreshToken :=
  match db.find? (fun r => r.token == token) with
  | some _ => (true, db.eraseP (fun r => r.token == token))
  | none => (false, db)

/-- `revoke_all_user_tokens` (auth_utils.py lines 210-214): delete every row
owned by the user; return the updated store and the count deleted. -/
def revoke_all_user_tokens (db : List RefreshToken) (user_id : String) :
    List RefreshToken × Nat :=
  (db.filter (fun r => !(r.user_id == user_id)),
    (db.filter (fun r => r.user_id == user_id)).length)

/-- The `{access_token, refresh_token, expires_in}` dict returned by
`create_token_pair`. -/
structure TokenPair where
  access_token : Jwt
  refresh_token : String
  expires_in : Nat
deriving DecidableEq

/-- `create_token_pair` (auth_utils.py lines 217-229): an access token and a
freshly stored refresh token for the user; `expires_in` is the access-token
TTL in seconds. -/
def create_token_pair (key : String) (now : Nat) (freshTok : String)
    (db : List RefreshToken) (user_id : String) :
    TokenPair × List RefreshToken :=
  let access := create_access_token key now user_id
  let (tokStr, _, db2) := create_refresh_token db user_id freshTok now
  (⟨access, tokStr, settings.accessTokenExpireMinutes * 60⟩, db2)

/-! ## Password authentication (`auth_utils.py` lines 107-126) -/

/-- `authenticate_user`: look up by email; `None` when absent; then the read
`user.oauth_provider` (which raises `AttributeError` on the actual model,
see `User.oauthProviderAttr`); then password verification. -/
def authenticate_user (users : List User) (email password : String) :
    Except PyExc (Option User) := do
  match users.find? (fun u => u.email == email) with
  | none => pure none
  | some user => do
    let op ← user.oauthProviderAttr
    if pyTruthyOptStr op then
      pure none
    else do
      let ok ← verify_password password user.hashed_password
      if !ok then pure none else pure (some user)

/-! ## Session facade (`main.py`) -/

/-- The error codes of the `ApiError` envelopes produced by `main.py`. -/
inductive ApiErrCode where
  | INVALID_CREDENTIALS
  | EMAIL_EXISTS
  | ACCOUNT_EXISTS
  | OAUTH2_NO_EMAIL
  | OAUTH2_ERROR
  | INTERNAL_ERROR
  | INVALID_TOKEN
deriving DecidableEq

/-- The `ApiResponse` envelope: `ok=True` with a data payload, or `ok=False`
with an error code. -/
inductive ApiOut (α : Type) where
  | ok (data : α)
  | err (code : ApiErrCode)
deriving DecidableEq

/-- `sign_in_password` (main.py lines 179-205): authenticate; on `None`
return the generic `INVALID_CREDENTIALS` envelope; otherwise issue a token
pair.  The handler has no exception handler, so any exception raised by
`authenticate_user` propagates (an `Except.error` outcome here). -/
def sign_in_password (key : String) (now : Nat) (freshTok : String)
    (users : List User) (db : List RefreshToken) (email password : String) :
    Except PyExc (ApiOut (User × TokenPair) × List RefreshToken) := do
  match ← authenticate_user users email password with
  | none => pure (.err .INVALID_CREDENTIALS, db)
  | some user =>
    let (tokens, db2) := create_token_pair key now freshTok db user.id
    pure (.ok (user, tokens), db2)

/-- The normalized identity dict returned by
`oauth2_utils.exchange_oauth2_code` (its `email` and `name` and
`provider_user_id` entries may be `None`). -/
structure OAuthUserInfo where
  email : Option String
  name : Option String
  provider_user_id : Option String
deriving DecidableEq

/-- The body of `sign_in_oauth2` (main.py lines 99-159), i.e. the code
inside the `try:` block.  `info` is the outcome of the awaited
`exchange_oauth2_code` call (which raises `ValueError` on exchange
failure).  For an existing user the handler reads `user.oauth_provider`,
which raises `AttributeError` on the actual model
(`User.oauthProviderAttr`); the account-exists / upgrade-in-place code
after that read is kept for shape but is unreachable.  In the new-user
branch, `User(..., oauth_provider=..., oauth_provider_user_id=...)` passes
keyword arguments that `models.py`'s `User` does not declare, so the
SQLAlchemy declarative constructor raises `TypeError`.  `randHash` stands
for `hash_password(generate_random_password())`. -/
def sign_in_oauth2_body (key : String) (now : Nat) (freshTok : String)
    (randHash : HashStr) (users : List User) (db : List RefreshToken)
    (provider : String) (info : Except PyExc OAuthUserInfo) :
    Except PyExc (ApiOut (User × TokenPair) × List User × List RefreshToken) := do
  let ui ← info
  if !(pyTruthyOptStr ui.email) then
    pure (.err .OAUTH2_NO_EMAIL, users, db)
  else
    let em := ui.email.getD ""
    match users.find? (fun u => u.email == em) with
    | some user => do
      let op ← user.oauthProviderAttr
      if pyTruthyOptStr op && !(op.getD "" == provider) then
        pure (.err .ACCOUNT_EXISTS, users, db)
      else
        if !(pyTruthyOptStr op) then
          let user2 : User := { user with hashed_password := randHash }
          let users2 := users.map (fun x => if x.email == em then user2 else x)
          let (tokens, db2) := create_token_pair key now freshTok db user2.id
          pure (.ok (user2, tokens), users2, db2)
        else
          let (tokens, db2) := create_token_pair key now freshTok db user.id
          pure (.ok (user, tokens), users, db2)
    | none => Except.error PyExc.typeError

/-- `sign_in_oauth2` (main.py lines 90-176): the `try/except` wrapper around
`sign_in_oauth2_body`: `ValueError` becomes the `OAUTH2_ERROR` envelope and
any other exception becomes the `INTERNAL_ERROR` envelope (uncommitted
session changes are discarded, so the stores are returned unchanged). -/
def sign_in_oauth2 (key : String) (now : Nat) (freshTok : String)
    (randHash : HashStr) (users : List User) (db : List RefreshToken)
    (provider : String) (info : Except PyExc OAuthUserInfo) :
    ApiOut (User × TokenPair) × List User × List RefreshToken :=
  match sign_in_oauth2_body key now freshTok randHash users db provider info with
  | .ok r => r
  | .error .valueError => (.err .OAUTH2_ERROR, users, db)
  | .error _ => (.err .INTERNAL_ERROR, users, db)

/-- `refresh_token` (main.py lines 250-278): verify the presented refresh
token; invalid means the `INVALID_TOKEN` envelope; otherwise issue a fresh
pair for the record's owner.  The revocation of the presented token is
commented out in the source, so the presented row is left in the store. -/
def refresh_token (key : String) (now : Nat) (freshTok : String)
    (db : List RefreshToken) (presented : String) :
    ApiOut TokenPair × List RefreshToken :=
  match verify_refresh_token now db presented with
  | (none, db2) => (.err .INVALID_TOKEN, db2)
  | (some r, db2) =>
    let (tokens, db3) := create_token_pair key now freshTok db2 r.user_id
    (.ok tokens, db3)

/-! ## Bearer-token dependency (`auth_utils.py` lines 129-195) -/

/-- The four `HTTPException` reasons of `get_current_user`; all four carry
`status_code=401` and an `UNAUTHORIZED` error envelope. -/
inductive AuthFail where
  | missingHeader
  | badFormat
  | invalidToken
  | userNotFound
deriving DecidableEq

/-- The HTTP status carried by each `AuthFail`: every `HTTPException` in
`get_current_user` is raised with `status_code=401`. -/
def AuthFail.toStatus : AuthFail → Nat := fun _ => 401

/-- The tail of `get_current_user` after a well-formed `bearer` scheme has
been parsed: verify the access token, then look the subject up in the user
store. -/
def bearer_branch (decode : String → Jwt) (key : String) (now : Nat)
    (users : List User) (tok : String) : Except AuthFail User :=
  match verify_access_token key now (decode tok) with
  | none => .error .invalidToken
  | some user_id =>
    match users.find? (fun u => u.id == user_id) with
    | none => .error .userNotFound
    | some u => .ok u

/-- `get_current_user` (auth_utils.py lines 129-195).  `decode` is the JWT
wire decoding of an arbitrary header substring (the serialization boundary
of the `Jwt` model).  A missing or empty header is `missingHeader`; then
`scheme, token = authorization.split()` raises `ValueError` unless the
split has exactly two parts, and `scheme.lower() != "bearer"` raises the
same `ValueError`, both caught and turned into the 401 `badFormat`
rejection. -/
def get_current_user (decode : String → Jwt) (key : String) (now : Nat)
    (users : List User) (authorization : Option String) :
    Except AuthFail User :=
  match authorization with
  | none => .error .missingHeader
  | some a =>
    if a = "" then .error .missingHeader
    else
      match pySplit a with
      | [scheme, tok] =>
        if pyLower scheme = "bearer" then bearer_branch decode key now users tok
        else .error .badFormat
      | _ => .error .badFormat

/-- `get_session` (main.py lines 281-291): returns the current user wrapped
in a `SessionResponse`; the payload is exactly the `get_current_user`
outcome. -/
def get_session (decode : String → Jwt) (key : String) (now : Nat)
    (users : List User) (authorization : Option String) :
    Except AuthFail User :=
  get_current_user decode key now users authorization

/-- `sign_out` (main.py lines 294-305): resolve the current user via the
bearer dependency (an `HTTPException` there leaves the store untouched),
then revoke all of that user's refresh tokens and answer `ok`. -/
def sign_out (decode : String → Jwt) (key : String) (now : Nat)
    (users : List User) (db : List RefreshToken)
    (authorization : Option String) :
    Except AuthFail Unit × List RefreshToken :=
  match get_current_user decode key now users authorization with
  | .error e => (.error e, db)
  | .ok u => (.ok (), (revoke_all_user_tokens db u.id).1)

/-! ## Helper instances and lemmas -/

deriving instance DecidableEq for Except

/-- Unfolding of `tokensUniqueB` on a cons cell. -/
theorem tokensUniqueB_cons {r : RefreshToken} {rs : List RefreshToken} :
    tokensUniqueB (r :: rs) = true ↔
      (∀ x ∈ rs, ¬ x.token = r.token) ∧ tokensUniqueB rs = true := by
  simp [tokensUniqueB, List.all_eq_true]

/-- In a store with pairwise distinct token strings, two members with the
same token string are the same record. -/
theorem tokensUniqueB_mem_mem {l : List RefreshToken} {x r : RefreshToken}
    (huniq : tokensUniqueB l = true) (hx : x ∈ l) (hr : r ∈ l)
    (ht : x.token = r.token) : x = r := by
  induction l with
  | nil => cases hx
  | cons a l ih =>
    rcases tokensUniqueB_cons.mp huniq with ⟨hall, htail⟩
    rcases List.mem_cons.mp hx with hx | hx <;>
      rcases List.mem_cons.mp hr with hr | hr
    · exact hx.trans hr.symm
    · rw [hx] at ht
      exact absurd ht.symm (hall r hr)
    · rw [hr] at ht
      exact absurd ht (hall x hx)
    · exact ih htail hx hr

/-- In a store with pairwise distinct token strings, looking a member's
token up finds exactly that member. -/
theorem find?_token_self {l : List RefreshToken} {r : RefreshToken}
    (huniq : tokensUniqueB l = true) (hr : r ∈ l) :
    l.find? (fun x => x.token == r.token) = some r := by
  induction l with
  | nil => cases hr
  | cons a l ih =>
    rcases tokensUniqueB_cons.mp huniq with ⟨hall, htail⟩
    rcases List.mem_cons.mp hr with hr | hr
    · subst hr
      exact List.find?_cons_of_pos _ (by simp)
    · rw [List.find?_cons_of_neg _
        (by simp only [beq_iff_eq]; exact fun h => hall r hr h.symm)]
      exact ih htail hr

/-- In a store with pairwise distinct token strings, after erasing the row
holding a token string, no row with that token string remains. -/
theorem find?_eraseP_token {l : List RefreshToken} (tok : String)
    (huniq : tokensUniqueB l = true) :
    (l.eraseP (fun x => x.token == tok)).find? (fun x => x.token == tok)
      = none := by
  induction l with
  | nil => simp
  | cons a l ih =>
    rcases tokensUniqueB_cons.mp huniq with ⟨hall, htail⟩
    by_cases ha : a.token = tok
    · rw [List.eraseP_cons_of_pos (by simp [ha])]
      exact List.find?_eq_none.mpr fun x hx => by
        simp only [beq_iff_eq]
        exact fun h => hall x hx (h.trans ha.symm)
    · rw [List.eraseP_cons_of_neg (by simp [ha]),
        List.find?_cons_of_neg _ (by simp [ha])]
      exact ih htail

/-- Filtering preserves pairwise distinctness of token strings. -/
theorem tokensUniqueB_filter {l : List RefreshToken}
    (q : RefreshToken → Bool) (huniq : tokensUniqueB l = true) :
    tokensUniqueB (l.filter q) = true := by
  induction l with
  | nil => simp [tokensUniqueB]
  | cons a l ih =>
    rcases tokensUniqueB_cons.mp huniq with ⟨hall, htail⟩
    by_cases hq : q a = true
    · rw [List.filter_cons_of_pos hq]
      exact tokensUniqueB_cons.mpr
        ⟨fun x hx => hall x (List.mem_of_mem_filter hx), ih htail⟩
    · rw [List.filter_cons_of_neg (by simpa using hq)]
      exact ih htail

/-- A find that succeeds on the left part of an append succeeds on the
whole list with the same result. -/
theorem find?_append_left {l l' : List RefreshToken}
    {p : RefreshToken → Bool} {a : RefreshToken} (h : l.find? p = some a) :
    (l ++ l').find? p = some a := by
  simp [List.find?_append, h, Option.or_some]

/-- `wordsAux` on a whitespace-free suffix: the pending word keeps
accumulating and becomes a single final word. -/
theorem wordsAux_nonspace {l : List Char} (h : ∀ c ∈ l, pyIsSpace c = false) :
    ∀ acc, wordsAux l acc =
      if acc.isEmpty && l.isEmpty then [] else [acc.reverse ++ l] := by
  induction l with
  | nil =>
    intro acc
    simp [wordsAux]
  | cons c cs ih =>
    intro acc
    have hc : pyIsSpace c = false := h c (List.mem_cons_self c cs)
    have hcs : ∀ x ∈ cs, pyIsSpace x = false :=
      fun x hx => h x (List.mem_cons_of_mem c hx)
    simp only [wordsAux, hc, Bool.false_eq_true, if_false, ih hcs,
      List.isEmpty_cons, Bool.and_false, List.reverse_cons]
    simp [List.append_assoc]

/-- `wordsAux` on a word, one space and a second word: exactly two words. -/
theorem wordsAux_two {s t : List Char}
    (hsw : ∀ c ∈ s, pyIsSpace c = false)
    (htw : ∀ c ∈ t, pyIsSpace c = false) (htne : t ≠ []) :
    ∀ acc, acc.reverse ++ s ≠ [] →
      wordsAux (s ++ ' ' :: t) acc = [acc.reverse ++ s, t] := by
  induction s with
  | nil =>
    intro acc hne
    have hacc : acc.isEmpty = false := by
      simp only [List.append_nil] at hne
      simpa [List.isEmpty_iff] using fun h => hne (by simp [h])
    simp [wordsAux, pyIsSpace, hacc, wordsAux_nonspace htw, htne]
  | cons c cs ih =>
    intro acc _
    have hc : pyIsSpace c = false := hsw c (List.mem_cons_self c cs)
    have hcs : ∀ x ∈ cs, pyIsSpace x = false :=
      fun x hx => hsw x (List.mem_cons_of_mem c hx)
    have hstep := ih hcs (c :: acc) (by simp)
    have heq : (c :: acc).reverse ++ cs = acc.reverse ++ c :: cs := by
      simp [List.append_assoc]
    rw [heq] at hstep
    simp only [List.cons_append, wordsAux, hc, Bool.false_eq_true, if_false]
    exact hstep

/-- Python `"<scheme> <token>".split()` is `[scheme, token]` when neither
part is empty or contains whitespace. -/
theorem pySplit_two {scheme tok : String}
    (hsw : ∀ c ∈ scheme.data, pyIsSpace c = false) (hsne : scheme.data ≠ [])
    (htw : ∀ c ∈ tok.data, pyIsSpace c = false) (htne : tok.data ≠ []) :
    pySplit (scheme ++ " " ++ tok) = [scheme, tok] := by
  unfold pySplit
  have hdata : (scheme ++ " " ++ tok).data = scheme.data ++ ' ' :: tok.data := by
    simp [String.data_append]
  rw [hdata, wordsAux_two hsw htw htne [] (by simpa using hsne)]
  rfl

/-! ## Claim theorems -/

/-- A stored password user, as the repo's own test fixture creates one
(`test_main.py` lines 44-57). -/
def storedUser : User :=
  ⟨"usr_1", "test@example.com", some "Test User", hash_password 12 0 "password123"⟩

/-- C1: the claim says the three password-sign-in failure cases (no such
user, OAuth-linked account, hash verification failure) all return the
identical generic `INVALID_CREDENTIALS` value, and that OAuth-linked
accounts always get it.  On the code as written this fails: `models.py`'s
`User` declares no `oauth_provider` column, so `authenticate_user`'s read
of `user.oauth_provider` raises `AttributeError` for ANY existing user.
Here the hash-verification-failure case (stored user, wrong password),
which the repo's own `test_sign_in_wrong_password` expects to yield
`INVALID_CREDENTIALS`, instead escapes with the exception, while the
no-such-user case does return the generic error — so the failure cases are
not even identical. -/
theorem C1_password_failure_cases_not_generic :
    sign_in_password "k" 0 "ref_a" [storedUser] [] "test@example.com"
        "wrongpassword" = .error .attributeError ∧
    sign_in_password "k" 0 "ref_a" [] [] "test@example.com" "wrongpassword"
        = .ok (.err .INVALID_CREDENTIALS, []) :=
  ⟨rfl, rfl⟩

/-- C2: the claim says no core operation terminates with an uncaught
exception.  Password sign-in for an existing user — even with the correct
password, the case `test_sign_in_success` expects to succeed — terminates
with an uncaught `AttributeError` from the `user.oauth_provider` read
(`models.py` declares no such column and `sign_in_password` has no
exception handler). -/
theorem C2_sign_in_password_uncaught_exception :
    sign_in_password "k" 0 "ref_b" [storedUser] [] "test@example.com"
        "password123" = .error .attributeError :=
  rfl

/-- C3: the claim says OAuth2 sign-in with an email matching an existing
password account upgrades that account in place.  On the code as written
the `user.oauth_provider` read raises `AttributeError` (no such column in
`models.py`), the blanket `except Exception` turns it into the
`INTERNAL_ERROR` envelope, and no upgrade happens: the stores are returned
unchanged, so the original password would still authenticate if password
sign-in itself did not crash. -/
theorem C3_oauth2_upgrade_unreachable :
    sign_in_oauth2 "k" 0 "ref_c" (hash_password 12 1 "random-secret")
        [storedUser] [] "google"
        (.ok ⟨some "test@example.com", some "Test User", some "12345"⟩)
      = (.err .INTERNAL_ERROR, [storedUser], []) :=
  rfl

/-- C8 counterexample: bcrypt uses only the first 72 bytes of the key, so
the distinct passwords of 73 and 72 letters `a` verify against each
other's hashes: `verify(hash(p1), p2) = true` although `p1 ≠ p2`. -/
theorem C8_counterexample_truncation :
    String.mk (List.replicate 73 'a') ≠ String.mk (List.replicate 72 'a') ∧
    verify_password (String.mk (List.replicate 72 'a'))
        (hash_password 12 0 (String.mk (List.replicate 73 'a'))) = .ok true :=
  ⟨by decide, rfl⟩

/-- C8 (amended): for every password `p`, `verify(hash(p), p) = true`; and
for distinct passwords `p1`, `p2`, `verify(hash(p1), p2) = false` provided
their UTF-8 encodings differ within the first 72 bytes (bcrypt silently
truncates keys at 72 bytes, so passwords equal up to that point collide). -/
theorem C8_hash_verify_roundtrip (cost salt : Nat) (p p1 p2 : String)
    (hdiff : trunc72 p1 ≠ trunc72 p2) :
    verify_password p (hash_password cost salt p) = .ok true ∧
    verify_password p2 (hash_password cost salt p1) = .ok false := by
  constructor
  · simp [verify_password, hash_password, bcrypt_verify, bcrypt_hash]
  · simp only [verify_password, hash_password, bcrypt_verify, bcrypt_hash,
      Except.ok.injEq]
    exact beq_eq_false_iff_ne.mpr fun h => hdiff h.symm

/-- Witness for C8: concrete roundtrip and concrete rejection. -/
theorem C8_hash_verify_roundtrip_witness :
    verify_password "x" (hash_password 12 0 "x") = .ok true ∧
    verify_password "b" (hash_password 12 0 "a") = .ok false :=
  C8_hash_verify_roundtrip 12 0 "x" "a" "b" (by decide)

/-- C9 counterexample: the claim says verification returns `false` on a
malformed hash rather than raising; passlib instead raises an
`UnknownHashError` (a `ValueError`) when the hash is not identifiable,
and `verify_password` just delegates to it. -/
theorem C9_counterexample_malformed_hash_raises :
    verify_password "x" (HashStr.malformed "not-a-hash") = .error .valueError ∧
    verify_password "x" (HashStr.malformed "not-a-hash") ≠ .ok false := by
  decide

/-- C9 (amended): verification returns a boolean for every well-formed
bcrypt hash, but on a malformed hash value it raises a `ValueError`
(passlib `UnknownHashError`) instead of returning `false`. -/
theorem C9_verify_returns_bool_on_wellformed (p : String) (h : BcryptDigest)
    (s : String) :
    (∃ b, verify_password p (.bcrypt h) = .ok b) ∧
    verify_password p (.malformed s) = .error .valueError :=
  ⟨⟨bcrypt_verify p h, rfl⟩, rfl⟩

/-- The `exp` claim of a token in the model (`none` when absent or when the
token is not well formed). -/
def Jwt.expOf : Jwt → Option Nat
  | .malformed _ => none
  | .signed p _ _ => p.exp

/-- Whether an optional expiry instant has not yet passed at time `now`
(an absent `exp` claim is never expired — jose only validates `exp` when
present). -/
def notExpiredAt (now : Nat) : Option Nat → Bool
  | none => true
  | some e => !(decide (e < now))

/-- C4: access-token verification is a total function into
`Option String` (it never raises — every `JWTError` is caught), and a
token it accepts is necessarily well signed under the server key and
algorithm, unexpired at `now`, and carries `sub = uid` and
`type = "access"`; in particular a token whose `type` discriminator is
missing or differs from `"access"` is never accepted, even when correctly
signed and unexpired. -/
theorem C4_verify_access_accepts_only_access_tokens (key : String)
    (now : Nat) (t : Jwt) (uid : String)
    (h : verify_access_token key now t = some uid) :
    t = Jwt.signed ⟨some uid, Jwt.expOf t, some "access"⟩ key
        settings.algorithm ∧
    notExpiredAt now (Jwt.expOf t) = true := by
  cases t with
  | malformed raw => simp [verify_access_token, jwt_decode] at h
  | signed p k a =>
    obtain ⟨ps, pe, pt⟩ := p
    by_cases hk : k = key ∧ a = settings.algorithm
    · obtain ⟨hk1, hk2⟩ := hk
      subst hk1
      subst hk2
      cases pe with
      | some e =>
        by_cases he : e < now
        · simp [verify_access_token, jwt_decode, he] at h
        · cases ps with
          | none => simp [verify_access_token, jwt_decode, he] at h
          | some u =>
            cases pt with
            | none => simp [verify_access_token, jwt_decode, he] at h
            | some ty =>
              by_cases hta : ty = "access"
              · subst hta
                simp [verify_access_token, jwt_decode, he] at h
                subst h
                simp [Jwt.expOf, notExpiredAt, he]
              · simp [verify_access_token, jwt_decode, he, hta] at h
      | none =>
        cases ps with
        | none => simp [verify_access_token, jwt_decode] at h
        | some u =>
          cases pt with
          | none => simp [verify_access_token, jwt_decode] at h
          | some ty =>
            by_cases hta : ty = "access"
            · subst hta
              simp [verify_access_token, jwt_decode] at h
              subst h
              simp [Jwt.expOf, notExpiredAt]
            · simp [verify_access_token, jwt_decode, hta] at h
    · simp [verify_access_token, jwt_decode, hk] at h

/-- Witness for C4: a concrete well-formed access token is accepted and has
the shape the theorem forces. -/
theorem C4_verify_access_witness :
    Jwt.signed ⟨some "u1", some 60, some "access"⟩ "k" "HS256"
      = Jwt.signed ⟨some "u1",
          Jwt.expOf (Jwt.signed ⟨some "u1", some 60, some "access"⟩ "k" "HS256"),
          some "access"⟩ "k" settings.algorithm ∧
    notExpiredAt 0
        (Jwt.expOf (Jwt.signed ⟨some "u1", some 60, some "access"⟩ "k" "HS256"))
      = true :=
  C4_verify_access_accepts_only_access_tokens "k" 0
    (Jwt.signed ⟨some "u1", some 60, some "access"⟩ "k" "HS256") "u1" rfl

/-- C5: refresh-token verification: absent token means invalid with the
store unchanged; a matching but past-expiry record is deleted as a side
effect and verification is invalid, and once deleted every later
verification of that token is invalid and leaves the store unchanged
(idempotent failure, also after an explicit revocation); an unexpired
matching record is returned with the store unchanged.  The uniqueness
hypothesis is the `unique=True` constraint on the token column. -/
theorem C5_verify_refresh_token_lazy_purge (now : Nat)
    (db : List RefreshToken) (tok : String)
    (huniq : tokensUniqueB db = true) :
    (db.find? (fun r => r.token == tok) = none →
      verify_refresh_token now db tok = (none, db)) ∧
    (∀ r, db.find? (fun r => r.token == tok) = some r →
      (r.expires_at < now →
        verify_refresh_token now db tok
          = (none, db.eraseP (fun r => r.token == tok)) ∧
        ∀ now2, verify_refresh_token now2
            (db.eraseP (fun r => r.token == tok)) tok
          = (none, db.eraseP (fun r => r.token == tok))) ∧
      (¬ r.expires_at < now →
        verify_refresh_token now db tok = (some r, db))) ∧
    (∀ now2, verify_refresh_token now2 (revoke_refresh_token db tok).2 tok
      = (none, (revoke_refresh_token db tok).2)) := by
  refine ⟨fun h => by simp [verify_refresh_token, h], fun r hr => ?_, ?_⟩
  · refine ⟨fun hexp => ⟨by simp [verify_refresh_token, hr, hexp], ?_⟩,
      fun hexp => by simp [verify_refresh_token, hr, hexp]⟩
    intro now2
    simp [verify_refresh_token, find?_eraseP_token tok huniq]
  · intro now2
    cases hfind : db.find? (fun r => r.token == tok) with
    | none => simp [revoke_refresh_token, hfind, verify_refresh_token]
    | some r => simp [revoke_refresh_token, hfind, verify_refresh_token,
        find?_eraseP_token tok huniq]

/-- Witness for C5: a store holding one expired record for `r1`; verifying
at a later time deletes it, and verifying again still fails on the
now-empty store. -/
theorem C5_verify_refresh_token_witness :
    verify_refresh_token 10 [⟨"u1", "r1", 5⟩] "r1" = (none, []) ∧
    verify_refresh_token 11 [] "r1" = (none, []) := by
  have h := C5_verify_refresh_token_lazy_purge 10 [⟨"u1", "r1", 5⟩] "r1"
    (by decide)
  have h2 := (h.2.1 ⟨"u1", "r1", 5⟩ (by decide)).1 (by decide)
  exact ⟨h2.1, h2.2 11⟩

/-- After deleting all rows of `uid`, no row carries a token string that
one of `uid`'s rows carried (token strings are pairwise distinct). -/
theorem find?_after_revoke_all {db : List RefreshToken} {r : RefreshToken}
    {uid : String} (huniq : tokensUniqueB db = true) (hr : r ∈ db)
    (hu : r.user_id = uid) :
    (db.filter (fun x => !(x.user_id == uid))).find?
      (fun x => x.token == r.token) = none := by
  refine List.find?_eq_none.mpr fun x hx => ?_
  simp only [beq_iff_eq]
  intro ht
  obtain ⟨hxdb, hxu⟩ := List.mem_filter.mp hx
  have hxr : x = r := tokensUniqueB_mem_mem huniq hxdb hr ht
  rw [hxr, hu] at hxu
  simp at hxu

/-- A row of a different user survives deleting all rows of `uid` and is
still the unique row found by its token string. -/
theorem find?_other_user_after_revoke_all {db : List RefreshToken}
    {r : RefreshToken} {uid : String} (huniq : tokensUniqueB db = true)
    (hr : r ∈ db) (hne : ¬ r.user_id = uid) :
    (db.filter (fun x => !(x.user_id == uid))).find?
      (fun x => x.token == r.token) = some r :=
  find?_token_self (tokensUniqueB_filter _ huniq)
    (List.mem_filter.mpr ⟨hr, by simp [hne]⟩)

/-- C6: a sign-out with a valid bearer credential for user `u` revokes ALL
of `u`'s refresh tokens — every one of them (two, three, ...), not only
the one presented — while every other user's rows survive and their
unexpired tokens still verify. -/
theorem C6_sign_out_revokes_all_user_tokens (decode : String → Jwt)
    (key : String) (now : Nat) (users : List User) (db : List RefreshToken)
    (auth : Option String) (u : User)
    (hcur : get_current_user decode key now users auth = .ok u)
    (huniq : tokensUniqueB db = true) :
    sign_out decode key now users db auth
      = (.ok (), (revoke_all_user_tokens db u.id).1) ∧
    (∀ r ∈ db, r.user_id = u.id → ∀ now2,
      verify_refresh_token now2 (revoke_all_user_tokens db u.id).1 r.token
        = (none, (revoke_all_user_tokens db u.id).1)) ∧
    (∀ r ∈ db, ¬ r.user_id = u.id →
      r ∈ (revoke_all_user_tokens db u.id).1 ∧
      ∀ now2, ¬ r.expires_at < now2 →
        verify_refresh_token now2 (revoke_all_user_tokens db u.id).1 r.token
          = (some r, (revoke_all_user_tokens db u.id).1)) := by
  refine ⟨by simp [sign_out, hcur], fun r hr hu now2 => ?_, fun r hr hne => ?_⟩
  · simp [verify_refresh_token, revoke_all_user_tokens,
      find?_after_revoke_all huniq hr hu]
  · refine ⟨List.mem_filter.mpr ⟨hr, by simp [hne]⟩, fun now2 hexp => ?_⟩
    simp [verify_refresh_token, revoke_all_user_tokens,
      find?_other_user_after_revoke_all huniq hr hne, hexp]

/-- Witness for C6: user `u1` holds the two refresh tokens `ra` and `rb`,
user `u2` holds `rc`; after one sign-out by `u1`, both `ra` and `rb` fail
verification while `rc` still verifies. -/
theorem C6_sign_out_witness :
    sign_out (fun _ => Jwt.signed ⟨some "u1", some 60, some "access"⟩ "k"
        "HS256") "k" 0 [⟨"u1", "a@x.com", none, hash_password 12 0 "p"⟩]
        [⟨"u1", "ra", 100⟩, ⟨"u1", "rb", 100⟩, ⟨"u2", "rc", 100⟩]
        (some "Bearer t")
      = (.ok (), [⟨"u2", "rc", 100⟩]) ∧
    verify_refresh_token 0 [⟨"u2", "rc", 100⟩] "ra"
      = (none, [⟨"u2", "rc", 100⟩]) ∧
    verify_refresh_token 0 [⟨"u2", "rc", 100⟩] "rb"
      = (none, [⟨"u2", "rc", 100⟩]) ∧
    verify_refresh_token 0 [⟨"u2", "rc", 100⟩] "rc"
      = (some ⟨"u2", "rc", 100⟩, [⟨"u2", "rc", 100⟩]) := by
  have h := C6_sign_out_revokes_all_user_tokens
    (fun _ => Jwt.signed ⟨some "u1", some 60, some "access"⟩ "k" "HS256")
    "k" 0 [⟨"u1", "a@x.com", none, hash_password 12 0 "p"⟩]
    [⟨"u1", "ra", 100⟩, ⟨"u1", "rb", 100⟩, ⟨"u2", "rc", 100⟩]
    (some "Bearer t") ⟨"u1", "a@x.com", none, hash_password 12 0 "p"⟩
    (by decide) (by decide)
  exact ⟨h.1, h.2.1 ⟨"u1", "ra", 100⟩ (by decide) rfl 0,
    h.2.1 ⟨"u1", "rb", 100⟩ (by decide) rfl 0,
    ((h.2.2 ⟨"u2", "rc", 100⟩ (by decide) (by decide)).2 0 (by decide))⟩

/-- C7: refresh with an unknown token string answers `INVALID_TOKEN` with
the store unchanged; refresh with a stored, unexpired token answers the
freshly created pair, whose access token verifies (at issuance time) to
the presented token's owner, and the presented refresh token itself is
still stored and still verifies afterwards (the rotation does not revoke
it — the revocation is commented out in the source). -/
theorem C7_refresh_rotates_and_keeps_presented (key : String) (now : Nat)
    (freshTok : String) (db : List RefreshToken) (presented : String) :
    (db.find? (fun r => r.token == presented) = none →
      refresh_token key now freshTok db presented
        = (.err .INVALID_TOKEN, db)) ∧
    (∀ r, db.find? (fun r => r.token == presented) = some r →
      ¬ r.expires_at < now →
      refresh_token key now freshTok db presented
        = (.ok (create_token_pair key now freshTok db r.user_id).1,
            (create_token_pair key now freshTok db r.user_id).2) ∧
      verify_access_token key now
          (create_token_pair key now freshTok db r.user_id).1.access_token
        = some r.user_id ∧
      verify_refresh_token now
          (create_token_pair key now freshTok db r.user_id).2 presented
        = (some r, (create_token_pair key now freshTok db r.user_id).2)) := by
  refine ⟨fun h => by simp [refresh_token, verify_refresh_token, h],
    fun r hr hexp => ⟨?_, ?_, ?_⟩⟩
  · simp [refresh_token, verify_refresh_token, hr, hexp]
  · simp [create_token_pair, create_refresh_token, create_access_token,
      verify_access_token, jwt_decode, Nat.not_lt.mpr (Nat.le_add_right now _)]
  · have hfind : ((create_token_pair key now freshTok db r.user_id).2).find?
        (fun r => r.token == presented) = some r := by
      simp only [create_token_pair, create_refresh_token]
      exact find?_append_left hr
    simp [verify_refresh_token, hfind, hexp]

/-- Witness for C7: both branches at a concrete store holding one valid
token `r1` for `u1`: an unknown string is rejected, and refreshing with
`r1` yields a pair whose access token verifies to `u1` while `r1` itself
still verifies. -/
theorem C7_refresh_witness :
    refresh_token "k" 0 "ref_new" [⟨"u1", "r1", 100⟩] "nope"
      = (.err .INVALID_TOKEN, [⟨"u1", "r1", 100⟩]) ∧
    refresh_token "k" 0 "ref_new" [⟨"u1", "r1", 100⟩] "r1"
      = (.ok (create_token_pair "k" 0 "ref_new" [⟨"u1", "r1", 100⟩] "u1").1,
          (create_token_pair "k" 0 "ref_new" [⟨"u1", "r1", 100⟩] "u1").2) ∧
    verify_access_token "k" 0
        (create_token_pair "k" 0 "ref_new" [⟨"u1", "r1", 100⟩] "u1").1.access_token
      = some "u1" ∧
    verify_refresh_token 0
        (create_token_pair "k" 0 "ref_new" [⟨"u1", "r1", 100⟩] "u1").2 "r1"
      = (some ⟨"u1", "r1", 100⟩,
          (create_token_pair "k" 0 "ref_new" [⟨"u1", "r1", 100⟩] "u1").2) := by
  have hu := C7_refresh_rotates_and_keeps_presented "k" 0 "ref_new"
    [⟨"u1", "r1", 100⟩] "nope"
  have hv := C7_refresh_rotates_and_keeps_presented "k" 0 "ref_new"
    [⟨"u1", "r1", 100⟩] "r1"
  have h2 := hv.2 ⟨"u1", "r1", 100⟩ (by decide) (by decide)
  exact ⟨hu.1 (by decide), h2.1, h2.2.1, h2.2.2⟩

/-- C10: for the bearer-protected operations, an Authorization header whose
value does not split into exactly two whitespace-separated parts is
rejected with the 401 `badFormat` error value (and the empty header with
the 401 `missingHeader` value) rather than crashing — `get_session` and
`sign_out` both surface that rejection and leave the store untouched —
while the scheme comparison is case-insensitive: any capitalization whose
`lower()` is `"bearer"`, followed by one token word, passes the format
check and proceeds to token verification (`bearer_branch`). -/
theorem C10_authorization_header_parsing (decode : String → Jwt)
    (key : String) (now : Nat) (users : List User) (db : List RefreshToken)
    (a scheme tok : String)
    (hne : ¬ a = "") (hlen : ¬ (pySplit a).length = 2)
    (hscheme : pyLower scheme = "bearer")
    (hsw : ∀ c ∈ scheme.data, pyIsSpace c = false)
    (hsne : ¬ scheme.data = [])
    (htw : ∀ c ∈ tok.data, pyIsSpace c = false)
    (htne : ¬ tok.data = []) :
    get_current_user decode key now users (some a) = .error .badFormat ∧
    AuthFail.toStatus .badFormat = 401 ∧
    get_session decode key now users (some a) = .error .badFormat ∧
    sign_out decode key now users db (some a) = (.error .badFormat, db) ∧
    get_current_user decode key now users (some "") = .error .missingHeader ∧
    AuthFail.toStatus .missingHeader = 401 ∧
    get_current_user decode key now users (some (scheme ++ " " ++ tok))
      = bearer_branch decode key now users tok := by
  have hbad : get_current_user decode key now users (some a)
      = .error .badFormat := by
    rcases hsp : pySplit a with _ | ⟨x, _ | ⟨y, _ | ⟨z, l⟩⟩⟩
    · simp [get_current_user, hne, hsp]
    · simp [get_current_user, hne, hsp]
    · exact absurd (by simp [hsp]) hlen
    · simp [get_current_user, hne, hsp]
  have hwell : get_current_user decode key now users
      (some (scheme ++ " " ++ tok)) = bearer_branch decode key now users tok := by
    have hdne : ¬ (scheme ++ " " ++ tok) = "" := by
      intro h
      have := congrArg String.data h
      simp [String.data_append] at this
    simp [get_current_user, hdne, pySplit_two hsw hsne htw htne, hscheme]
  exact ⟨hbad, rfl, hbad, by simp [sign_out, hbad], by simp [get_current_user],
    rfl, hwell⟩

/-- Witness for C10: the three-part header value is rejected with 401 by
`get_current_user`, `get_session` and `sign_out`, and the upper-case
scheme `BEARER` with a token word reaches token verification. -/
theorem C10_authorization_header_witness :
    get_current_user (fun s => Jwt.malformed s) "k" 0 [] (some "Bearer a b")
      = .error .badFormat ∧
    AuthFail.toStatus .badFormat = 401 ∧
    get_session (fun s => Jwt.malformed s) "k" 0 [] (some "Bearer a b")
      = .error .badFormat ∧
    sign_out (fun s => Jwt.malformed s) "k" 0 [] [] (some "Bearer a b")
      = (.error .badFormat, []) ∧
    get_current_user (fun s => Jwt.malformed s) "k" 0 [] (some "")
      = .error .missingHeader ∧
    AuthFail.toStatus .missingHeader = 401 ∧
    get_current_user (fun s => Jwt.malformed s) "k" 0 []
        (some ("BEARER" ++ " " ++ "x"))
      = bearer_branch (fun s => Jwt.malformed s) "k" 0 [] "x" :=
  C10_authorization_header_parsing (fun s => Jwt.malformed s) "k" 0 [] []
    "Bearer a b" "BEARER" "x" (by decide) (by decide) (by decide) (by decide)
    (by decide) (by decide) (by decide)
